import Mathlib

/-!
Verification of the `entsoe_qdap` day-ahead electricity price client.

This file gives a shallow embedding of `entsoe_qdap.py`:
the document parser `entsoe._parse_xml_response`, the helpers `_add_prefix`
(here `add_pfx`), `_reso_s`, `_utc_ts`, `_ts_last_midnight`, the transport
check in `_base_request`, and the window computations of
`query_today_prices` / `query_day_ahead_prices`.

The XML layer is modelled after the behaviour of `lxml.etree`: trees are
`XElem` values (qualified tag, optional text, children), `find`/`findall`
follow ElementPath child-path semantics, and namespace resolution follows
lxml's `_elementpath.xpath_tokenizer`, in which the default namespace of a
lookup is taken from the `None` key (or the empty-string key) of the
namespaces mapping and a qualified segment `pre:name` is resolved through
the mapping, raising `SyntaxError` for an unknown prefix.

Python exceptions are modelled by the `PErr` type: `PErr.entsoe` is the
module's `entsoeException` (the spec's `ParseError` / `NoDataError`), and
the remaining constructors stand for the built-in Python exceptions that
can escape the code (`AttributeError`, `TypeError`, `ValueError`,
`NameError`, `SyntaxError`, and `requests.HTTPError`).
-/

namespace Entsoe

/-- Exceptions observable from the module.  `entsoe msg` is
`entsoeException(msg)`; the others are Python built-ins escaping uncaught. -/
inductive PErr where
  | entsoe (msg : String)
  | httpError
  | attrError
  | typeError
  | valueError
  | nameError
  | syntaxError (pre : String)
  deriving DecidableEq

deriving instance DecidableEq for Except

/-- True exactly for the module's own exception class `entsoeException`,
which the specification calls `ParseError` / `NoDataError`. -/
def PErr.isParseErr : PErr → Bool
  | .entsoe _ => true
  | _ => false

/-- A qualified XML tag: lxml's `'{uri}name'` is `⟨some uri, name⟩` and a
tag in no namespace is `⟨none, name⟩`. -/
structure QTag where
  uri : Option String
  nm : String
  deriving DecidableEq

/-- An XML element: qualified tag, text (lxml `.text`, `None` for an empty
element), children in document order. -/
inductive XElem where
  | mk : QTag → Option String → List XElem → XElem

def XElem.tag : XElem → QTag
  | .mk t _ _ => t

def XElem.text : XElem → Option String
  | .mk _ x _ => x

def XElem.children : XElem → List XElem
  | .mk _ _ c => c

/-- A parsed document: the root element together with the default
namespace declared on the root (`root.nsmap` restricted to the `None`
key, the only entry `_parse_xml_response` looks at). -/
structure XDoc where
  root : XElem
  defaultNs : Option String

/-- The namespaces mapping handed to `find`/`findall`: the Python dict
`ns` built in `_parse_xml_response`, whose single key is the current
value of the global `xmlns_id` (an `Option String`). -/
abbrev NsMap := List (Option String × String)

def nsLookup : NsMap → Option String → Option String
  | [], _ => none
  | (k, v) :: t, q => if k = q then some v else nsLookup t q

/-- Effective default namespace of a lookup, after lxml's
`(namespaces.get(None) or namespaces.get(''))` combined with the
truthiness test `if default_namespace and ...`: an empty URI counts as
no default. -/
def effDefault (ns : NsMap) : Option String :=
  match nsLookup ns none with
  | some u =>
      if u = "" then
        match nsLookup ns (some "") with
        | some v => if v = "" then none else some v
        | none => none
      else some u
  | none =>
      match nsLookup ns (some "") with
      | some v => if v = "" then none else some v
      | none => none

/-- Split a character list at the first occurrence of `c`. -/
def splitAtCh (c : Char) : List Char → Option (List Char × List Char)
  | [] => none
  | x :: t =>
      if x = c then some ([], t)
      else match splitAtCh c t with
           | some (a, b) => some (x :: a, b)
           | none => none

/-- Split a character list on every occurrence of `c`. -/
def splitChL (c : Char) : List Char → List (List Char)
  | [] => [[]]
  | x :: t =>
      if x = c then [] :: splitChL c t
      else match splitChL c t with
           | h :: r => (x :: h) :: r
           | [] => [[x]]

/-- Path segments of an ElementPath child path, split on `'/'`. -/
def pathSegs (p : String) : List String :=
  (splitChL '/' p.data).map String.mk

/-- Resolve one unbraced tag token, following lxml's tokenizer: a token
containing `':'` is split at the first colon and the prefix looked up
(unknown prefix raises `SyntaxError`); otherwise the effective default
namespace, if any, qualifies the token. -/
def resolveSeg (ns : NsMap) (seg : String) : Except PErr QTag :=
  match splitAtCh ':' seg.data with
  | some (pre, nm) =>
      match nsLookup ns (some (String.mk pre)) with
      | some u => .ok ⟨some u, String.mk nm⟩
      | none => .error (.syntaxError (String.mk pre))
  | none =>
      match effDefault ns with
      | some u => .ok ⟨some u, seg⟩
      | none => .ok ⟨none, seg⟩

/-- Resolve a list of tag tokens left to right, stopping at the first
failure, as the tokenizer generator is consumed. -/
def resolveSegs (ns : NsMap) : List String → Except PErr (List QTag)
  | [] => .ok []
  | s :: t =>
      match resolveSeg ns s with
      | .error e => .error e
      | .ok q =>
          match resolveSegs ns t with
          | .error e => .error e
          | .ok qs => .ok (q :: qs)

/-- Resolve a whole child path into qualified tags. -/
def resolvePath (ns : NsMap) (p : String) : Except PErr (List QTag) :=
  resolveSegs ns (pathSegs p)

/-- Model of `entsoe._add_prefix`: prepend the default-namespace
identifier `nsi` to every path level that does not already contain a
colon. -/
def add_pfx (rp : String) (nsi : Option String) : String :=
  match nsi with
  | none => rp
  | some n =>
      if n = "" then rp
      else
        String.mk (List.intercalate ['/']
          ((splitChL '/' rp.data).map
            (fun seg => if seg.contains ':' then seg else n.data ++ [':'] ++ seg)))

/-- ElementPath `findall` for a resolved child path: at each level keep
the children whose tag matches, in document order. -/
def findAllQ (e : XElem) (path : List QTag) : List XElem :=
  path.foldl
    (fun acc q => acc.flatMap (fun el => el.children.filter (fun c => c.tag = q)))
    [e]

/-- ElementPath `find`: first match in document order, if any. -/
def findQ (e : XElem) (path : List QTag) : Option XElem :=
  (findAllQ e path).head?

/-- The value produced by Python `float(str)`, kept as the exact decimal
`mant * 10 ^ exp10` of the accepted literal.  The representation is not
normalised, and the binary rounding of CPython floats is not modelled:
the parser only stores prices, never computes or compares across
representations, so the exact-decimal reading preserves every observable
behaviour. -/
structure PyFloatV where
  mant : ℤ
  exp10 : ℤ
  deriving DecidableEq

/-- Values stored in the Python result dict: text fields
(`Optional[str]`), converted integers, and the price dictionary. -/
inductive PVal where
  | s (v : Option String)
  | i (n : ℤ)
  | d (m : List (ℤ × PyFloatV))
  deriving DecidableEq

/-- The result area of `_parse_xml_response`: a Python dict as an
insertion-ordered association list with unique keys. -/
abbrev PyDict := List (String × PVal)

/-- Python `d[k] = v`: overwrite in place if the key exists, else append. -/
def setK : PyDict → String → PVal → PyDict
  | [], k, v => [(k, v)]
  | (k', v') :: t, k, v =>
      if k' = k then (k, v) :: t else (k', v') :: setK t k v

/-- Python `d[k]` (as an `Option`). -/
def getK : PyDict → String → Option PVal
  | [], _ => none
  | (k', v') :: t, k => if k' = k then some v' else getK t k

/-- Python `del d[k]` (key present at most once). -/
def delK : PyDict → String → PyDict
  | [], _ => []
  | (k', v') :: t, k => if k' = k then t else (k', v') :: delK t k

/-- Fetch a text field stored in the result dict. -/
def getS (d : PyDict) (k : String) : Option String :=
  match getK d k with
  | some (.s v) => v
  | _ => none

/-- Rendering of an `Optional[str]` inside an f-string: `None` prints as
`"None"`. -/
def pyShow (v : Option String) : String :=
  v.getD "None"

/-- The price dictionary `result['epl']`, keys are epoch timestamps. -/
def setKZ : List (ℤ × PyFloatV) → ℤ → PyFloatV → List (ℤ × PyFloatV)
  | [], k, v => [(k, v)]
  | (k', v') :: t, k, v =>
      if k' = k then (k, v) :: t else (k', v') :: setKZ t k v

def getKZ : List (ℤ × PyFloatV) → ℤ → Option PyFloatV
  | [], _ => none
  | (k', v') :: t, k => if k' = k then some v' else getKZ t k

/-- The table `xml_extract` of the source: key, XML path, expected
value, clean-up flag, in dict insertion order. -/
def xml_extract : List (String × String × Option String × Bool) :=
  [ ("doc_type", "type", some "A44", true),
    ("curv_typ", "TimeSeries/curveType", some "A01", true),
    ("unit_cur", "TimeSeries/currency_Unit.name", some "EUR", true),
    ("unit_pmu", "TimeSeries/price_Measure_Unit.name", none, true),
    ("sop", "TimeSeries/Period/timeInterval/start", none, false),
    ("eop", "TimeSeries/Period/timeInterval/end", none, false),
    ("reso", "TimeSeries/Period/resolution", none, false) ]

/-- Digit value of an ASCII digit character. -/
def dval (c : Char) : ℕ := c.toNat - 48

/-- Characters stripped by Python `str.strip()` (the ASCII white-space
subset, which is all that can occur in the documents modelled here). -/
def isPyWS (c : Char) : Bool :=
  c = ' ' ∨ c = '\t' ∨ c = '\n' ∨ c = '\r' ∨ c = '\x0b' ∨ c = '\x0c'

def stripWS (cs : List Char) : List Char :=
  ((cs.dropWhile isPyWS).reverse.dropWhile isPyWS).reverse

/-- Scan a run of digits with CPython's underscore rule (an underscore
must sit between two digits).  Input continues a run whose first digit
is already consumed; returns accumulated value, number of digits
consumed, and the rest. -/
def digitsUSgo : List Char → ℕ → ℕ → ℕ × ℕ × List Char
  | [], acc, n => (acc, n, [])
  | c :: t, acc, n =>
      if c.isDigit then digitsUSgo t (10 * acc + dval c) (n + 1)
      else
        match c, t with
        | '_', d :: t' =>
            if d.isDigit then digitsUSgo t' (10 * acc + dval d) (n + 1)
            else (acc, n, c :: t)
        | _, _ => (acc, n, c :: t)

/-- A nonempty digit run (with underscore grouping): value, digit count,
rest; `none` if the input does not start with a digit. -/
def digitsUS : List Char → Option (ℕ × ℕ × List Char)
  | [] => none
  | c :: t => if c.isDigit then some (digitsUSgo t (dval c) 1) else none

/-- Model of Python `int(str)`: optional white space, optional sign, a
digit run, nothing else.  (Non-ASCII digit forms are not modelled.) -/
def pyInt (s : String) : Option ℤ :=
  match stripWS s.data with
  | '+' :: r =>
      match digitsUS r with
      | some (v, _, []) => some (v : ℤ)
      | _ => none
  | '-' :: r =>
      match digitsUS r with
      | some (v, _, []) => some (-(v : ℤ))
      | _ => none
  | r =>
      match digitsUS r with
      | some (v, _, []) => some (v : ℤ)
      | _ => none

/-- Exponent part of a float literal: empty, or `e`/`E`, optional sign,
digit run.  `m` and `f` are the mantissa and exponent accumulated so
far. -/
def pyFloatExp (m : ℤ) (f : ℤ) : List Char → Option PyFloatV
  | [] => some ⟨m, f⟩
  | 'e' :: r =>
      (match r with
       | '+' :: r' =>
           match digitsUS r' with
           | some (e, _, []) => some ⟨m, f + (e : ℤ)⟩
           | _ => none
       | '-' :: r' =>
           match digitsUS r' with
           | some (e, _, []) => some ⟨m, f - (e : ℤ)⟩
           | _ => none
       | _ =>
           match digitsUS r with
           | some (e, _, []) => some ⟨m, f + (e : ℤ)⟩
           | _ => none)
  | 'E' :: r =>
      (match r with
       | '+' :: r' =>
           match digitsUS r' with
           | some (e, _, []) => some ⟨m, f + (e : ℤ)⟩
           | _ => none
       | '-' :: r' =>
           match digitsUS r' with
           | some (e, _, []) => some ⟨m, f - (e : ℤ)⟩
           | _ => none
       | _ =>
           match digitsUS r with
           | some (e, _, []) => some ⟨m, f + (e : ℤ)⟩
           | _ => none)
  | _ => none

/-- Unsigned numeric float literal: `digits [. [digits]] [exp]` or
`. digits [exp]`. -/
def pyFloatBody (cs : List Char) : Option PyFloatV :=
  match digitsUS cs with
  | some (ip, _, rest) =>
      (match rest with
       | '.' :: r2 =>
           match digitsUS r2 with
           | some (fp, fl, r3) => pyFloatExp ((ip : ℤ) * 10 ^ fl + (fp : ℤ)) (-(fl : ℤ)) r3
           | none => pyFloatExp (ip : ℤ) 0 r2
       | _ => pyFloatExp (ip : ℤ) 0 rest)
  | none =>
      match cs with
      | '.' :: r2 =>
          (match digitsUS r2 with
           | some (fp, fl, r3) => pyFloatExp (fp : ℤ) (-(fl : ℤ)) r3
           | none => none)
      | _ => none

/-- Model of Python `float(str)` on finite decimal literals.  (The
non-finite literals `inf`/`nan` are not modelled.) -/
def pyFloat (s : String) : Option PyFloatV :=
  match stripWS s.data with
  | '+' :: r => pyFloatBody r
  | '-' :: r => (pyFloatBody r).map (fun v => ⟨-v.mant, v.exp10⟩)
  | r => pyFloatBody r

/-- Literal character of the strptime pattern (the pattern is compiled
with `re.IGNORECASE`, so ASCII letters match either case). -/
def pLit (c : Char) (cs : List Char) (k : List Char → Option α) : Option α :=
  match cs with
  | c' :: r => if c'.toLower = c.toLower then k r else none
  | [] => none

/-- Field `%Y` of `_strptime.TimeRE`: regex `\d\d\d\d`, exactly four
digits. -/
def pYear (cs : List Char) (k : ℕ → List Char → Option α) : Option α :=
  match cs with
  | c1 :: c2 :: c3 :: c4 :: r =>
      if c1.isDigit ∧ c2.isDigit ∧ c3.isDigit ∧ c4.isDigit then
        k (1000 * dval c1 + 100 * dval c2 + 10 * dval c3 + dval c4) r
      else none
  | _ => none

/-- Field `%m`: regex `1[0-2]|0[1-9]|[1-9]`, two-digit alternatives
first, then one digit, backtracking into the continuation. -/
def pMonth (cs : List Char) (k : ℕ → List Char → Option α) : Option α :=
  (match cs with
   | c1 :: c2 :: r =>
       if (c1 = '1' ∧ '0' ≤ c2 ∧ c2 ≤ '2') ∨ (c1 = '0' ∧ '1' ≤ c2 ∧ c2 ≤ '9') then
         k (10 * dval c1 + dval c2) r
       else none
   | _ => none) <|>
  (match cs with
   | c1 :: r => if '1' ≤ c1 ∧ c1 ≤ '9' then k (dval c1) r else none
   | _ => none)

/-- Field `%d`: regex `3[0-1]|[1-2]\d|0[1-9]|[1-9]| [1-9]` in that
alternative order. -/
def pDay (cs : List Char) (k : ℕ → List Char → Option α) : Option α :=
  (match cs with
   | c1 :: c2 :: r =>
       if (c1 = '3' ∧ '0' ≤ c2 ∧ c2 ≤ '1') ∨ ('1' ≤ c1 ∧ c1 ≤ '2' ∧ c2.isDigit) ∨
          (c1 = '0' ∧ '1' ≤ c2 ∧ c2 ≤ '9') then
         k (10 * dval c1 + dval c2) r
       else none
   | _ => none) <|>
  (match cs with
   | c1 :: r => if '1' ≤ c1 ∧ c1 ≤ '9' then k (dval c1) r else none
   | _ => none) <|>
  (match cs with
   | ' ' :: c2 :: r => if '1' ≤ c2 ∧ c2 ≤ '9' then k (dval c2) r else none
   | _ => none)

/-- Field `%H`: regex `2[0-3]|[0-1]\d|\d`. -/
def pHour (cs : List Char) (k : ℕ → List Char → Option α) : Option α :=
  (match cs with
   | c1 :: c2 :: r =>
       if (c1 = '2' ∧ '0' ≤ c2 ∧ c2 ≤ '3') ∨ ('0' ≤ c1 ∧ c1 ≤ '1' ∧ c2.isDigit) then
         k (10 * dval c1 + dval c2) r
       else none
   | _ => none) <|>
  (match cs with
   | c1 :: r => if c1.isDigit then k (dval c1) r else none
   | _ => none)

/-- Field `%M`: regex `[0-5]\d|\d`. -/
def pMinute (cs : List Char) (k : ℕ → List Char → Option α) : Option α :=
  (match cs with
   | c1 :: c2 :: r =>
       if ('0' ≤ c1 ∧ c1 ≤ '5') ∧ c2.isDigit then k (10 * dval c1 + dval c2) r
       else none
   | _ => none) <|>
  (match cs with
   | c1 :: r => if c1.isDigit then k (dval c1) r else none
   | _ => none)

/-- Model of the regex `time.strptime` compiles for the format
`'%Y-%m-%dT%H:%MZ'` (`time_fmt_1` of the source): anchored at the start,
required to consume the whole string, literals matched case
insensitively.  Yields `(year, month, day, hour, minute)`. -/
def strptimeFmt1 (s : String) : Option (ℕ × ℕ × ℕ × ℕ × ℕ) :=
  pYear s.data (fun y r1 =>
    pLit '-' r1 (fun r2 =>
      pMonth r2 (fun mo r3 =>
        pLit '-' r3 (fun r4 =>
          pDay r4 (fun d r5 =>
            pLit 'T' r5 (fun r6 =>
              pHour r6 (fun h r7 =>
                pLit ':' r7 (fun r8 =>
                  pMinute r8 (fun mi r9 =>
                    pLit 'Z' r9 (fun r10 =>
                      if r10 = [] then some (y, mo, d, h, mi) else none))))))))))

def isLeap (y : ℕ) : Bool :=
  (y % 4 = 0 ∧ y % 100 ≠ 0) ∨ y % 400 = 0

def monthLen (y mo : ℕ) : ℕ :=
  if mo = 2 then (if isLeap y then 29 else 28)
  else if mo = 4 ∨ mo = 6 ∨ mo = 9 ∨ mo = 11 then 30
  else 31

/-- Validity test performed by `datetime.date(year, month, day)`, which
`_strptime` constructs to compute the day of year: this is where
`time.strptime` rejects year 0 and day overflow with a `ValueError`. -/
def validDate (y mo d : ℕ) : Bool :=
  1 ≤ y ∧ y ≤ 9999 ∧ 1 ≤ mo ∧ mo ≤ 12 ∧ 1 ≤ d ∧ d ≤ monthLen y mo

/-- Cumulative days before month `mo` in a non-leap year. -/
def daysBeforeMonth (mo : ℕ) : ℕ :=
  [0, 0, 31, 59, 90, 120, 151, 181, 212, 243, 273, 304, 334].getD mo 0

/-- Proleptic-Gregorian ordinal of a valid date, as in
`datetime.date.toordinal` (0001-01-01 is day 1). -/
def toOrdinal (y mo d : ℕ) : ℕ :=
  365 * (y - 1) + (y - 1) / 4 - (y - 1) / 100 + (y - 1) / 400 +
    daysBeforeMonth mo + (if isLeap y ∧ 2 < mo then 1 else 0) + d

/-- Model of `calendar.timegm` on the struct produced by the parse:
seconds since the Unix epoch (1970-01-01 has ordinal 719163). -/
def timegm (y mo d h mi : ℕ) : ℤ :=
  ((toOrdinal y mo d : ℤ) - 719163) * 86400 + (h : ℤ) * 3600 + (mi : ℤ) * 60

/-- Model of `entsoe._utc_ts`: `time.strptime(s, time_fmt_1)` inside a
`try` whose handler rewraps any exception as `entsoeException`, then
`calendar.timegm`.  A `None` argument (empty element text) raises
`TypeError` inside the `try` and is likewise rewrapped; exception
messages of rewrapped errors are abbreviated, their kind is faithful. -/
def utc_ts : Option String → Except PErr ℤ
  | none => .error (.entsoe "strptime: argument must be str")
  | some s =>
      match strptimeFmt1 s with
      | none => .error (.entsoe ("time data does not match format: " ++ s))
      | some (y, mo, d, h, mi) =>
          if validDate y mo d then .ok (timegm y mo d h mi)
          else .error (.entsoe "date value out of range")

/-- Tail of the match of `reso_format` (`^PT(\d+)([SMH])$`) after at
least one digit with accumulated value `acc`: more digits, then a unit
letter, then the end of the string. -/
def resoTail : List Char → ℕ → Option (ℕ × Char)
  | [], _ => none
  | [u], acc => if u = 'S' ∨ u = 'M' ∨ u = 'H' then some (acc, u) else none
  | c :: c2 :: t, acc => if c.isDigit then resoTail (c2 :: t) (10 * acc + dval c) else none

/-- Match of `reso_format= re.compile(r'^PT(\d+)([SMH])$')`, giving the
integer value of group 1 and the unit letter of group 2. -/
def matchReso (s : String) : Option (ℕ × Char) :=
  match s.data with
  | 'P' :: 'T' :: c :: r => if c.isDigit then resoTail r (dval c) else none
  | _ => none

/-- The table `reso_multif= { 'S': 1, 'M': 60, 'H': 3600 }`. -/
def reso_multif : List (Char × ℕ) := [('S', 1), ('M', 60), ('H', 3600)]

def multifLookup : List (Char × ℕ) → Char → Option ℕ
  | [], _ => none
  | (k, v) :: t, c => if k = c then some v else multifLookup t c

/-- Model of `entsoe._reso_s`.  A `None` argument makes `re.match`
raise an uncaught `TypeError`.  A non-matching string raises
`entsoeException('Unrecognised resolution: ...')`.  On a match, the
unit is looked up in `reso_multif`; the `else` branch would execute
`raise entsoeExeption(...)` with a misspelled name, i.e. an uncaught
`NameError`. -/
def reso_s : Option String → Except PErr ℤ
  | none => .error .typeError
  | some s =>
      match matchReso s with
      | none => .error (.entsoe ("Unrecognised resolution: " ++ s))
      | some (v, u) =>
          match multifLookup reso_multif u with
          | some m => .ok ((v : ℤ) * (m : ℤ))
          | none => .error .nameError

/-- Substring test, Python's `needle in haystack` on strings. -/
def subL (needle : List Char) : List Char → Bool
  | [] => needle.isEmpty
  | c :: t => needle.isPrefixOf (c :: t) || subL needle t

def containsSub (needle hay : String) : Bool :=
  subL needle.data hay.data

/-- An HTTP response as `_base_request` observes it: status code,
`content-type` header (defaulted to the empty string), body text. -/
structure HResp where
  status : ℕ
  contentType : String
  body : String
  deriving DecidableEq

/-- Model of `entsoe._base_request` past the GET itself:
`raise_for_status` raises `requests.HTTPError` for status 400–599
(re-raised unchanged); then, only for content type exactly
`application/xml`, a body containing the marker phrase
`'No matching data found'` raises `entsoeException` with that message;
any other response is returned unexamined. -/
def base_request (r : HResp) : Except PErr HResp :=
  if 400 ≤ r.status ∧ r.status < 600 then .error .httpError
  else if r.contentType = "application/xml" ∧ containsSub "No matching data found" r.body then
    .error (.entsoe "No matching data found")
  else .ok r

def one_day : ℤ := 86400

/-- Model of `entsoe._ts_last_midnight`: current epoch time minus the
hour, minute and second components of the local wall-clock time. -/
def ts_last_midnight (now h m s : ℤ) : ℤ :=
  now - h * 3600 - m * 60 - s

/-- The `(periodStart, periodEnd)` pair of timestamps computed by
`query_today_prices` before wire formatting. -/
def query_today_window (now h m s : ℤ) : ℤ × ℤ :=
  (ts_last_midnight now h m s, ts_last_midnight now h m s + one_day)

/-- The `(periodStart, periodEnd)` pair of timestamps computed by
`query_day_ahead_prices` before wire formatting. -/
def query_day_ahead_window (now h m s : ℤ) : ℤ × ℤ :=
  (ts_last_midnight now h m s + one_day, ts_last_midnight now h m s + one_day + one_day)

/-- One row of the field-extraction loop: key, original path, expected
value, clean-up flag, and the (pure, precomputed) resolution of the
namespace-adjusted path, bound exactly where the source performs the
lookup. -/
structure FieldEntry where
  key : String
  path : String
  expectv : Option String
  cleanupFlag : Bool
  rpath : Except PErr (List QTag)

/-- The rows of `xml_extract` with their namespace-adjusted, resolved
paths for a given namespaces dict `ns` and default-namespace identifier
`st` (the value of the global `xmlns_id` after the nsmap scan). -/
def fieldSpecs (ns : NsMap) (st : Option String) : List FieldEntry :=
  xml_extract.map
    (fun e => ⟨e.1, e.2.1, e.2.2.1, e.2.2.2, resolvePath ns (add_pfx e.2.1 st)⟩)

/-- The scalar-field loop of `_parse_xml_response`: for each row, find
the field (absence raises `entsoeException('Unknown field: ...')`),
compare against the expected literal if one is declared (mismatch
raises `entsoeException('Unexpected value: ...')`), and store the text
in the result dict. -/
def extractLoop (root : XElem) : PyDict → List FieldEntry → Except PErr PyDict
  | acc, [] => .ok acc
  | acc, f :: rest =>
      match f.rpath with
      | .error e => .error e
      | .ok qs =>
          match findQ root qs with
          | none => .error (.entsoe ("Unknown field: " ++ f.path))
          | some elm =>
              match f.expectv with
              | some ev =>
                  if elm.text = some ev then
                    extractLoop root (setK acc f.key (.s elm.text)) rest
                  else
                    .error (.entsoe ("Unexpected value: " ++ f.path ++ " = " ++ pyShow elm.text))
              | none => extractLoop root (setK acc f.key (.s elm.text)) rest

/-- The unit normalisation: `if unit.endswith('WH'): unit= unit[:-1]+'h'`. -/
def unitFix (u : String) : String :=
  match u.data.reverse with
  | 'H' :: 'W' :: _ => String.mk (u.data.dropLast ++ ['h'])
  | _ => u

/-- Body of one iteration of the point loop: find `position` under the
point (absence makes `.text` raise `AttributeError`), convert with
`int` (`None` text raises `TypeError`, unparsable text `ValueError`),
same for `price.amount` with `float`; yields the computed instant
`sop + (position-1)*reso` and the price. -/
def entryOf (pPos pPrice : Except PErr (List QTag)) (sop reso : ℤ) (pt : XElem) :
    Except PErr (ℤ × PyFloatV) :=
  match pPos with
  | .error e => .error e
  | .ok qsI =>
      match findQ pt qsI with
      | none => .error .attrError
      | some el =>
          match el.text with
          | none => .error .typeError
          | some t =>
              match pyInt t with
              | none => .error .valueError
              | some vi =>
                  match pPrice with
                  | .error e => .error e
                  | .ok qsP =>
                      match findQ pt qsP with
                      | none => .error .attrError
                      | some pel =>
                          match pel.text with
                          | none => .error .typeError
                          | some tp =>
                              match pyFloat tp with
                              | none => .error .valueError
                              | some vp => .ok (sop + (vi - 1) * reso, vp)

/-- The point loop `for k in lop: ... result['epl'][vt]= vp`, building
the price dict left to right with last-write-wins insertion. -/
def pointLoop (pPos pPrice : Except PErr (List QTag)) (sop reso : ℤ) :
    List (ℤ × PyFloatV) → List XElem → Except PErr (List (ℤ × PyFloatV))
  | acc, [] => .ok acc
  | acc, pt :: rest =>
      match entryOf pPos pPrice sop reso pt with
      | .error e => .error e
      | .ok kv => pointLoop pPos pPrice sop reso (setKZ acc kv.1 kv.2) rest

/-- The clean-up loop: delete every key of `xml_extract` whose clean-up
flag is set. -/
def cleanup (d : PyDict) : PyDict :=
  xml_extract.foldl (fun a e => if e.2.2.2 then delK a e.1 else a) d

/-- The body of `_parse_xml_response` after the nsmap scan, operating on
the resolved paths: field extraction, unit derivation, timestamp and
resolution conversion, point loop, clean-up. -/
def parseCore (fs : List FieldEntry) (pPoint pPos pPrice : Except PErr (List QTag))
    (root : XElem) : Except PErr PyDict :=
  match extractLoop root [("epl", .d [])] fs with
  | .error e => .error e
  | .ok r1 =>
      let u0 := pyShow (getS r1 "unit_cur") ++ "/" ++ pyShow (getS r1 "unit_pmu")
      let r2 := setK r1 "unit" (.s (some (unitFix u0)))
      match utc_ts (getS r2 "sop") with
      | .error e => .error e
      | .ok sop =>
          let r3 := setK r2 "sop" (.i sop)
          match utc_ts (getS r3 "eop") with
          | .error e => .error e
          | .ok eop =>
              let r4 := setK r3 "eop" (.i eop)
              match reso_s (getS r4 "reso") with
              | .error e => .error e
              | .ok reso =>
                  let r5 := setK r4 "reso" (.i reso)
                  match pPoint with
                  | .error e => .error e
                  | .ok qsPt =>
                      match pointLoop pPos pPrice sop reso [] (findAllQ root qsPt) with
                      | .error e => .error e
                      | .ok epl => .ok (cleanup (setK r5 "epl" (.d epl)))

/-- The namespaces dict built from the root nsmap: the default
namespace, if declared, is stored under the incoming value of the
global `xmlns_id`. -/
def nsOfDoc (s0 : Option String) (doc : XDoc) : NsMap :=
  match doc.defaultNs with
  | some u => [(s0, u)]
  | none => []

/-- The value of the global `xmlns_id` after the nsmap scan: cleared to
`None` when the document declares no default namespace, kept otherwise. -/
def stOfDoc (s0 : Option String) (doc : XDoc) : Option String :=
  match doc.defaultNs with
  | some _ => s0
  | none => none

/-- Model of `entsoe._parse_xml_response` on an already-built element
tree: returns the outcome together with the new value of the module
global `xmlns_id`. -/
def parse_xml (s0 : Option String) (doc : XDoc) : Except PErr PyDict × Option String :=
  (parseCore (fieldSpecs (nsOfDoc s0 doc) (stOfDoc s0 doc))
      (resolvePath (nsOfDoc s0 doc) (add_pfx "TimeSeries/Period/Point" (stOfDoc s0 doc)))
      (resolvePath (nsOfDoc s0 doc) (add_pfx "position" (stOfDoc s0 doc)))
      (resolvePath (nsOfDoc s0 doc) (add_pfx "price.amount" (stOfDoc s0 doc)))
      doc.root,
   stOfDoc s0 doc)

/-- Helper element constructor for sample documents. -/
def el (u : Option String) (nm : String) (txt : Option String) (ch : List XElem) : XElem :=
  .mk ⟨u, nm⟩ txt ch

/-- A well-formed sample price document in a default namespace, with two
points at positions 1 and 2. -/
def exDoc : XDoc :=
  { defaultNs := some "urn:x",
    root := el (some "urn:x") "Publication_MarketDocument" none
      [ el (some "urn:x") "type" (some "A44") [],
        el (some "urn:x") "TimeSeries" none
          [ el (some "urn:x") "curveType" (some "A01") [],
            el (some "urn:x") "currency_Unit.name" (some "EUR") [],
            el (some "urn:x") "price_Measure_Unit.name" (some "MWH") [],
            el (some "urn:x") "Period" none
              [ el (some "urn:x") "timeInterval" none
                  [ el (some "urn:x") "start" (some "2023-03-15T00:00Z") [],
                    el (some "urn:x") "end" (some "2023-03-16T00:00Z") [] ],
                el (some "urn:x") "resolution" (some "PT1H") [],
                el (some "urn:x") "Point" none
                  [ el (some "urn:x") "position" (some "1") [],
                    el (some "urn:x") "price.amount" (some "250") [] ],
                el (some "urn:x") "Point" none
                  [ el (some "urn:x") "position" (some "2") [],
                    el (some "urn:x") "price.amount" (some "185.5") [] ] ] ] ] }

theorem resoTail_unit (cs : List Char) (acc v : ℕ) (u : Char)
    (h : resoTail cs acc = some (v, u)) : u = 'S' ∨ u = 'M' ∨ u = 'H' := by
  induction cs generalizing acc with
  | nil => simp [resoTail] at h
  | cons c t ih =>
      cases t with
      | nil =>
          by_cases hc : c = 'S' ∨ c = 'M' ∨ c = 'H'
          · simp [resoTail, hc] at h
            rcases h with ⟨h1, h2⟩
            subst h2
            exact hc
          · simp [resoTail, hc] at h
      | cons c2 t2 =>
          by_cases hc : c.isDigit = true
          · rw [resoTail, if_pos hc] at h
            exact ih _ h
          · rw [resoTail, if_neg hc] at h
            exact absurd h (by simp)

theorem matchReso_unit (s : String) (v : ℕ) (u : Char)
    (h : matchReso s = some (v, u)) : u = 'S' ∨ u = 'M' ∨ u = 'H' := by
  unfold matchReso at h
  split at h
  · split at h
    · exact resoTail_unit _ _ _ _ h
    · exact absurd h (by simp)
  · exact absurd h (by simp)

/-- Claim C3: the resolution converter maps `PT15M` to 900 seconds,
`PT1H` to 3600 seconds and `PT60S` to 60 seconds, and every string not
matched by `reso_format` (such as `PT1X`) raises the resolution
`entsoeException` instead of returning a value. -/
theorem spec_C3 (s : String) (h : matchReso s = none) :
    reso_s (some "PT15M") = .ok 900 ∧ reso_s (some "PT1H") = .ok 3600 ∧
    reso_s (some "PT60S") = .ok 60 ∧
    reso_s (some s) = .error (.entsoe ("Unrecognised resolution: " ++ s)) := by
  refine ⟨by decide, by decide, by decide, ?_⟩
  simp [reso_s, h]

theorem spec_C3_witness :
    matchReso "PT1X" = none ∧
    (reso_s (some "PT15M") = .ok 900 ∧ reso_s (some "PT1H") = .ok 3600 ∧
     reso_s (some "PT60S") = .ok 60 ∧
     reso_s (some "PT1X") = .error (.entsoe ("Unrecognised resolution: " ++ "PT1X"))) :=
  ⟨by decide, spec_C3 "PT1X" (by decide)⟩

/-- Claim C10: for every string, the resolution converter either
returns an integer number of seconds or raises the
`Unrecognised resolution` exception; the `else` branch raising through
the misspelled name `entsoeExeption` (a `NameError`) is unreachable,
because any unit captured by `reso_format` is a key of `reso_multif`. -/
theorem spec_C10 (s : String) :
    (∃ n : ℤ, reso_s (some s) = .ok n) ∨
    reso_s (some s) = .error (.entsoe ("Unrecognised resolution: " ++ s)) := by
  cases hm : matchReso s with
  | none => right; simp [reso_s, hm]
  | some vu =>
      left
      obtain ⟨v, u⟩ := vu
      rcases matchReso_unit s v u hm with hu | hu | hu <;> subst hu
      · exact ⟨(v : ℤ) * 1, by simp only [reso_s, hm, multifLookup, reso_multif]; rfl⟩
      · exact ⟨(v : ℤ) * 60, by simp only [reso_s, hm, multifLookup, reso_multif]; rfl⟩
      · exact ⟨(v : ℤ) * 3600, by simp only [reso_s, hm, multifLookup, reso_multif]; rfl⟩

/-- Claim C6: an HTTP 200 response with content type exactly
`application/xml` whose body contains the marker phrase
`No matching data found` makes `_base_request` raise the no-data
`entsoeException` instead of returning the body; a 200 response with
any other content type is returned unexamined. -/
theorem spec_C6 :
    (∀ r : HResp, r.status = 200 → r.contentType = "application/xml" →
       containsSub "No matching data found" r.body = true →
       base_request r = .error (.entsoe "No matching data found")) ∧
    (∀ r : HResp, r.status = 200 → r.contentType ≠ "application/xml" →
       base_request r = .ok r) := by
  constructor
  · intro r hs hct hb
    simp [base_request, hs, hct, hb]
  · intro r hs hct
    simp [base_request, hs, hct]

theorem spec_C6_witness :
    base_request ⟨200, "application/xml", "<x>No matching data found</x>"⟩ =
      .error (.entsoe "No matching data found") ∧
    base_request ⟨200, "application/zip", "No matching data found"⟩ =
      .ok ⟨200, "application/zip", "No matching data found"⟩ :=
  ⟨spec_C6.1 ⟨200, "application/xml", "<x>No matching data found</x>"⟩ rfl rfl (by decide),
   spec_C6.2 ⟨200, "application/zip", "No matching data found"⟩ rfl (by decide)⟩

/-- Claim C8: for any wall-clock time and any local time zone
decomposition, the `query_today_prices` window and the
`query_day_ahead_prices` window each span exactly 86400 seconds, and
the day-ahead window starts exactly where the today window ends. -/
theorem spec_C8 (now h m s : ℤ) :
    (query_today_window now h m s).2 - (query_today_window now h m s).1 = 86400 ∧
    (query_day_ahead_window now h m s).2 - (query_day_ahead_window now h m s).1 = 86400 ∧
    (query_day_ahead_window now h m s).1 = (query_today_window now h m s).2 := by
  refine ⟨?_, ?_, ?_⟩ <;> simp [query_today_window, query_day_ahead_window, one_day]

/-- Modelled from the spec's words, for comparison only: the wire
timestamp format `YYYY-MM-DDTHH:MMZ` read strictly, as an exact
17-character shape with zero-padded two-digit fields. -/
def specWireFmt (s : String) : Bool :=
  match s.data with
  | [y1, y2, y3, y4, '-', m1, m2, '-', d1, d2, 'T', h1, h2, ':', n1, n2, 'Z'] =>
      y1.isDigit && y2.isDigit && y3.isDigit && y4.isDigit && m1.isDigit && m2.isDigit &&
      d1.isDigit && d2.isDigit && h1.isDigit && h2.isDigit && n1.isDigit && n2.isDigit
  | _ => false

/-- Counterexample to claim C4: `'2023-3-15T00:00Z'` does not match the
wire format `YYYY-MM-DDTHH:MMZ` exactly, yet `_utc_ts` accepts it
(returning epoch 1678838400) instead of failing, because `strptime`
allows unpadded fields. -/
theorem spec_C4_cex :
    specWireFmt "2023-3-15T00:00Z" = false ∧
    utc_ts (some "2023-3-15T00:00Z") = .ok 1678838400 := by
  constructor <;> decide

/-- Claim C4 as amended: `'2023-03-15T00:00Z'` converts to epoch
1678838400; exactly one `strptime` pattern is attempted and every
string it rejects fails with `ParseError`, as does every match whose
calendar date is invalid; but the pattern is lenient, accepting
unpadded month/day/hour/minute and case-insensitive literals, so
`'2023-3-15T00:00Z'` also converts to 1678838400 instead of failing. -/
theorem spec_C4_amended (s : String) (hnm : strptimeFmt1 s = none)
    (s' : String) (y mo d hh mi : ℕ) (hm : strptimeFmt1 s' = some (y, mo, d, hh, mi))
    (hbad : validDate y mo d = false) :
    utc_ts (some "2023-03-15T00:00Z") = .ok 1678838400 ∧
    utc_ts (some "2023-3-15T00:00Z") = .ok 1678838400 ∧
    utc_ts (some s) = .error (.entsoe ("time data does not match format: " ++ s)) ∧
    utc_ts (some s') = .error (.entsoe "date value out of range") := by
  refine ⟨by decide, by decide, ?_, ?_⟩
  · simp [utc_ts, hnm]
  · simp [utc_ts, hm, hbad]

theorem spec_C4_amended_witness :
    utc_ts (some "2023-03-15T00:00Z") = .ok 1678838400 ∧
    utc_ts (some "2023-3-15T00:00Z") = .ok 1678838400 ∧
    utc_ts (some "23-03-15T00:00Z") =
      .error (.entsoe ("time data does not match format: " ++ "23-03-15T00:00Z")) ∧
    utc_ts (some "2023-02-30T00:00Z") = .error (.entsoe "date value out of range") :=
  spec_C4_amended "23-03-15T00:00Z" (by decide) "2023-02-30T00:00Z" 2023 2 30 0 0
    (by decide) (by decide)

theorem extractLoop_ok_shape (ns : NsMap) (st : Option String) (root : XElem) (r1 : PyDict)
    (h : extractLoop root [("epl", .d [])] (fieldSpecs ns st) = .ok r1) :
    ∃ t4 t5 t6 t7 : Option String,
      r1 = [("epl", .d []), ("doc_type", .s (some "A44")), ("curv_typ", .s (some "A01")),
            ("unit_cur", .s (some "EUR")), ("unit_pmu", .s t4), ("sop", .s t5),
            ("eop", .s t6), ("reso", .s t7)] := by
  simp only [fieldSpecs, xml_extract, List.map] at h
  simp only [extractLoop] at h
  repeat' split at h
  all_goals (try exact Except.noConfusion h)
  injection h with h2
  subst h2
  simp only [setK, String.reduceEq, reduceIte]
  simp only [*]
  exact ⟨_, _, _, _, rfl⟩

theorem parseCore_ok_shape (ns : NsMap) (st : Option String)
    (pPoint pPos pPrice : Except PErr (List QTag)) (root : XElem) (r : PyDict)
    (h : parseCore (fieldSpecs ns st) pPoint pPos pPrice root = .ok r) :
    ∃ (t4 t5 t6 t7 : Option String) (sop eop reso : ℤ) (qsPt : List QTag)
      (epl : List (ℤ × PyFloatV)),
      utc_ts t5 = .ok sop ∧ utc_ts t6 = .ok eop ∧ reso_s t7 = .ok reso ∧
      pPoint = .ok qsPt ∧
      pointLoop pPos pPrice sop reso [] (findAllQ root qsPt) = .ok epl ∧
      r = [("epl", .d epl), ("sop", .i sop), ("eop", .i eop), ("reso", .i reso),
           ("unit", .s (some (unitFix (pyShow (some "EUR") ++ "/" ++ pyShow t4))))] := by
  unfold parseCore at h
  cases hE : extractLoop root [("epl", .d [])] (fieldSpecs ns st) with
  | error e => rw [hE] at h; exact Except.noConfusion h
  | ok r1 =>
      rw [hE] at h
      obtain ⟨t4, t5, t6, t7, rfl⟩ := extractLoop_ok_shape ns st root r1 hE
      simp only [getS, getK, setK, String.reduceEq, reduceIte] at h
      cases hsop : utc_ts t5 with
      | error e => rw [hsop] at h; exact Except.noConfusion h
      | ok sop =>
      simp only [hsop] at h
      cases heop : utc_ts t6 with
      | error e => rw [heop] at h; exact Except.noConfusion h
      | ok eop =>
      simp only [heop] at h
      cases hreso : reso_s t7 with
      | error e => rw [hreso] at h; exact Except.noConfusion h
      | ok reso =>
      simp only [hreso] at h
      cases hpt : pPoint with
      | error e => rw [hpt] at h; exact Except.noConfusion h
      | ok qsPt =>
      simp only [hpt] at h
      cases hloop : pointLoop pPos pPrice sop reso [] (findAllQ root qsPt) with
      | error e => rw [hloop] at h; exact Except.noConfusion h
      | ok epl =>
      simp only [hloop] at h
      simp only [cleanup, xml_extract, List.foldl, setK, delK, String.reduceEq, reduceIte] at h
      injection h with h2
      subst h2
      exact ⟨t4, t5, t6, t7, sop, eop, reso, qsPt, epl, hsop, heop, hreso, rfl, hloop, rfl⟩

theorem extractLoop_append (root : XElem) (acc : PyDict) (l1 l2 : List FieldEntry) :
    extractLoop root acc (l1 ++ l2) =
      match extractLoop root acc l1 with
      | .ok a => extractLoop root a l2
      | .error e => .error e := by
  induction l1 generalizing acc with
  | nil => rfl
  | cons f t ih =>
      simp only [List.cons_append, extractLoop]
      cases hf : f.rpath with
      | error e => simp only [hf]
      | ok qs =>
          simp only [hf]
          cases hq : findQ root qs with
          | none => simp only [hq]
          | some elm =>
              simp only [hq]
              cases he : f.expectv with
              | none => simp only [he]; exact ih _
              | some ev =>
                  simp only [he]
                  by_cases ht : elm.text = some ev
                  · rw [if_pos ht, if_pos ht]
                    exact ih _
                  · rw [if_neg ht, if_neg ht]

theorem parseCore_extract_error (fs : List FieldEntry)
    (pPoint pPos pPrice : Except PErr (List QTag)) (root : XElem) (e : PErr)
    (h : extractLoop root [("epl", .d [])] fs = .error e) :
    parseCore fs pPoint pPos pPrice root = .error e := by
  unfold parseCore
  simp only [h]

/-- The dict produced by parsing `exDoc`. -/
def exParsed : PyDict :=
  [("epl", .d [(1678838400, ⟨250, 0⟩), (1678842000, ⟨1855, -1⟩)]),
   ("sop", .i 1678838400), ("eop", .i 1678924800), ("reso", .i 3600),
   ("unit", .s (some "EUR/MWh"))]

/-- Counterexample to claim C2: parsing the valid document `exDoc`
returns a dict that holds the price mapping under the key `epl`
together with the metadata `sop`, `eop`, `reso` and `unit` — not the
price mapping alone. -/
theorem spec_C2_cex :
    (parse_xml (some "entsoe") exDoc).1 = .ok exParsed ∧
    (getK exParsed "unit").isSome = true ∧
    (getK exParsed "sop").isSome = true ∧
    (getK exParsed "eop").isSome = true ∧
    (getK exParsed "reso").isSome = true ∧
    exParsed.map Prod.fst ≠ ["epl"] := by
  refine ⟨by decide, by decide, by decide, by decide, by decide, by decide⟩

/-- Claim C2 as amended: every successful parse returns a dict with
exactly the keys `epl`, `sop`, `eop`, `reso`, `unit` in that order —
the price mapping under `epl` plus the period start, period end and
resolution as integers and the unit string; only the four fields whose
clean-up flag is set (`doc_type`, `curv_typ`, `unit_cur`, `unit_pmu`)
are removed before returning. -/
theorem spec_C2_amended (s0 : Option String) (doc : XDoc) (r : PyDict)
    (h : (parse_xml s0 doc).1 = .ok r) :
    ∃ (epl : List (ℤ × PyFloatV)) (sop eop reso : ℤ) (u : String),
      r = [("epl", .d epl), ("sop", .i sop), ("eop", .i eop), ("reso", .i reso),
           ("unit", .s (some u))] ∧
      r.map Prod.fst = ["epl", "sop", "eop", "reso", "unit"] := by
  unfold parse_xml at h
  obtain ⟨t4, t5, t6, t7, sop, eop, reso, qsPt, epl, _, _, _, _, _, rfl⟩ :=
    parseCore_ok_shape _ _ _ _ _ _ _ h
  exact ⟨epl, sop, eop, reso, _, rfl, rfl⟩

theorem spec_C2_amended_witness :
    ∃ (epl : List (ℤ × PyFloatV)) (sop eop reso : ℤ) (u : String),
      exParsed = [("epl", .d epl), ("sop", .i sop), ("eop", .i eop), ("reso", .i reso),
                  ("unit", .s (some u))] ∧
      exParsed.map Prod.fst = ["epl", "sop", "eop", "reso", "unit"] :=
  spec_C2_amended (some "entsoe") exDoc exParsed (by decide)

/-- A document identical to `exDoc` except that `TimeSeries/curveType`
is absent. -/
def exDocMissing : XDoc :=
  { defaultNs := some "urn:x",
    root := el (some "urn:x") "Publication_MarketDocument" none
      [ el (some "urn:x") "type" (some "A44") [],
        el (some "urn:x") "TimeSeries" none
          [ el (some "urn:x") "currency_Unit.name" (some "EUR") [],
            el (some "urn:x") "price_Measure_Unit.name" (some "MWH") [] ] ] }

/-- A document identical to `exDoc` except that `type` is `A09`. -/
def exDocA09 : XDoc :=
  { defaultNs := some "urn:x",
    root := el (some "urn:x") "Publication_MarketDocument" none
      [ el (some "urn:x") "type" (some "A09") [],
        el (some "urn:x") "TimeSeries" none
          [ el (some "urn:x") "curveType" (some "A01") [] ] ] }

/-- Claim C5: in the scalar-field loop, when the fields before row `f`
extract successfully, an absent field `f` makes the whole parse fail
with `entsoeException` naming the field's path, and a present field
whose text differs from the declared expected literal makes the parse
fail with `entsoeException` naming the path and the actual value. -/
theorem spec_C5 :
    (∀ (s0 : Option String) (doc : XDoc) (fs1 fs2 : List FieldEntry) (f : FieldEntry)
       (acc : PyDict) (qs : List QTag),
       fieldSpecs (nsOfDoc s0 doc) (stOfDoc s0 doc) = fs1 ++ f :: fs2 →
       extractLoop doc.root [("epl", .d [])] fs1 = .ok acc →
       f.rpath = .ok qs →
       findQ doc.root qs = none →
       (parse_xml s0 doc).1 = .error (.entsoe ("Unknown field: " ++ f.path))) ∧
    (∀ (s0 : Option String) (doc : XDoc) (fs1 fs2 : List FieldEntry) (f : FieldEntry)
       (acc : PyDict) (qs : List QTag) (elm : XElem) (ev : String),
       fieldSpecs (nsOfDoc s0 doc) (stOfDoc s0 doc) = fs1 ++ f :: fs2 →
       extractLoop doc.root [("epl", .d [])] fs1 = .ok acc →
       f.rpath = .ok qs →
       findQ doc.root qs = some elm →
       f.expectv = some ev →
       elm.text ≠ some ev →
       (parse_xml s0 doc).1 =
         .error (.entsoe ("Unexpected value: " ++ f.path ++ " = " ++ pyShow elm.text))) := by
  constructor
  · intro s0 doc fs1 fs2 f acc qs hsplit hpre hq habs
    have hx : (parse_xml s0 doc).1 =
        parseCore (fieldSpecs (nsOfDoc s0 doc) (stOfDoc s0 doc))
          (resolvePath (nsOfDoc s0 doc) (add_pfx "TimeSeries/Period/Point" (stOfDoc s0 doc)))
          (resolvePath (nsOfDoc s0 doc) (add_pfx "position" (stOfDoc s0 doc)))
          (resolvePath (nsOfDoc s0 doc) (add_pfx "price.amount" (stOfDoc s0 doc)))
          doc.root := rfl
    rw [hx]
    apply parseCore_extract_error
    rw [hsplit, extractLoop_append, hpre]
    simp only [extractLoop, hq, habs]
  · intro s0 doc fs1 fs2 f acc qs elm ev hsplit hpre hq hel hev hne
    have hx : (parse_xml s0 doc).1 =
        parseCore (fieldSpecs (nsOfDoc s0 doc) (stOfDoc s0 doc))
          (resolvePath (nsOfDoc s0 doc) (add_pfx "TimeSeries/Period/Point" (stOfDoc s0 doc)))
          (resolvePath (nsOfDoc s0 doc) (add_pfx "position" (stOfDoc s0 doc)))
          (resolvePath (nsOfDoc s0 doc) (add_pfx "price.amount" (stOfDoc s0 doc)))
          doc.root := rfl
    rw [hx]
    apply parseCore_extract_error
    rw [hsplit, extractLoop_append, hpre]
    simp only [extractLoop, hq, hel, hev, if_neg hne]

theorem spec_C5_witness :
    (parse_xml (some "entsoe") exDocMissing).1 =
      .error (.entsoe ("Unknown field: " ++ "TimeSeries/curveType")) ∧
    (parse_xml (some "entsoe") exDocA09).1 =
      .error (.entsoe ("Unexpected value: " ++ "type" ++ " = " ++ pyShow (some "A09"))) :=
  ⟨spec_C5.1 (some "entsoe") exDocMissing
      ((fieldSpecs (nsOfDoc (some "entsoe") exDocMissing) (stOfDoc (some "entsoe") exDocMissing)).take 1)
      ((fieldSpecs (nsOfDoc (some "entsoe") exDocMissing) (stOfDoc (some "entsoe") exDocMissing)).drop 2)
      ⟨"curv_typ", "TimeSeries/curveType", some "A01", true,
        resolvePath (nsOfDoc (some "entsoe") exDocMissing)
          (add_pfx "TimeSeries/curveType" (stOfDoc (some "entsoe") exDocMissing))⟩
      [("epl", .d []), ("doc_type", .s (some "A44"))]
      [⟨some "urn:x", "TimeSeries"⟩, ⟨some "urn:x", "curveType"⟩]
      rfl rfl rfl rfl,
   spec_C5.2 (some "entsoe") exDocA09
      []
      ((fieldSpecs (nsOfDoc (some "entsoe") exDocA09) (stOfDoc (some "entsoe") exDocA09)).drop 1)
      ⟨"doc_type", "type", some "A44", true,
        resolvePath (nsOfDoc (some "entsoe") exDocA09)
          (add_pfx "type" (stOfDoc (some "entsoe") exDocA09))⟩
      [("epl", .d [])]
      [⟨some "urn:x", "type"⟩]
      (el (some "urn:x") "type" (some "A09") [])
      "A44"
      rfl rfl rfl rfl rfl (by decide)⟩
theorem getKZ_setKZ_self (a : List (ℤ × PyFloatV)) (k : ℤ) (v : PyFloatV) :
    getKZ (setKZ a k v) k = some v := by
  induction a with
  | nil => simp [setKZ, getKZ]
  | cons h t ih =>
      obtain ⟨k', v'⟩ := h
      by_cases hk : k' = k
      · simp [setKZ, getKZ, hk]
      · simp only [setKZ, getKZ, if_neg hk]
        exact ih

theorem getKZ_setKZ_ne (a : List (ℤ × PyFloatV)) (k k' : ℤ) (v : PyFloatV)
    (hne : k' ≠ k) : getKZ (setKZ a k' v) k = getKZ a k := by
  induction a with
  | nil => simp [setKZ, getKZ, hne]
  | cons h t ih =>
      obtain ⟨k0, v0⟩ := h
      by_cases hk : k0 = k'
      · subst hk
        simp [setKZ, getKZ, hne]
      · simp only [setKZ, if_neg hk, getKZ]
        by_cases hk2 : k0 = k
        · simp [hk2]
        · rw [if_neg hk2, if_neg hk2]
          exact ih

theorem pointLoop_preserve (pPos pPrice : Except PErr (List QTag)) (S R : ℤ) (k : ℤ)
    (l : List XElem) (acc m : List (ℤ × PyFloatV))
    (h : pointLoop pPos pPrice S R acc l = .ok m)
    (hnone : ∀ j pt', l.get? j = some pt' → ∀ kv,
       entryOf pPos pPrice S R pt' = .ok kv → kv.1 ≠ k) :
    getKZ m k = getKZ acc k := by
  induction l generalizing acc with
  | nil =>
      simp only [pointLoop] at h
      injection h with h2
      subst h2
      rfl
  | cons pt0 rest ih =>
      simp only [pointLoop] at h
      cases hE0 : entryOf pPos pPrice S R pt0 with
      | error e => rw [hE0] at h; exact Except.noConfusion h
      | ok kv0 =>
          rw [hE0] at h
          have hne : kv0.1 ≠ k := hnone 0 pt0 rfl kv0 hE0
          have := ih (setKZ acc kv0.1 kv0.2) h
            (fun j pt' hj => hnone (j + 1) pt' (by simpa using hj))
          rw [this, getKZ_setKZ_ne _ _ _ _ hne]

theorem pointLoop_lookup (pPos pPrice : Except PErr (List QTag)) (S R : ℤ)
    (l : List XElem) (acc m : List (ℤ × PyFloatV)) (i : ℕ) (pt : XElem)
    (k : ℤ) (v : PyFloatV)
    (h : pointLoop pPos pPrice S R acc l = .ok m)
    (hpt : l.get? i = some pt)
    (hE : entryOf pPos pPrice S R pt = .ok (k, v))
    (hlast : ∀ j pt', i < j → l.get? j = some pt' → ∀ kv,
       entryOf pPos pPrice S R pt' = .ok kv → kv.1 ≠ k) :
    getKZ m k = some v := by
  induction l generalizing acc i with
  | nil => simp at hpt
  | cons pt0 rest ih =>
      simp only [pointLoop] at h
      cases hE0 : entryOf pPos pPrice S R pt0 with
      | error e => rw [hE0] at h; exact Except.noConfusion h
      | ok kv0 =>
          rw [hE0] at h
          cases i with
          | zero =>
              simp only [List.get?_cons_zero] at hpt
              injection hpt with hpt2
              subst hpt2
              rw [hE] at hE0
              injection hE0 with hkv
              subst hkv
              rw [pointLoop_preserve pPos pPrice S R k rest _ m h
                    (fun j pt' hj => hlast (j + 1) pt' (Nat.succ_pos j) (by simpa using hj))]
              exact getKZ_setKZ_self acc k v
          | succ i0 =>
              exact ih _ i0 h (by simpa using hpt)
                (fun j pt' hj hg => hlast (j + 1) pt' (Nat.succ_lt_succ hj) (by simpa using hg))

/-- Claim C1: in a document the parser accepts, with parsed period
start `S` and resolution `R` seconds, every `Point` element whose
`position` text parses to integer `p` and whose `price.amount` text
parses to float `v` yields the entry `S + (p-1)*R ↦ v` in the returned
price mapping, a later point overwriting an earlier one at the same
computed key (the hypothesis `hlast` states the point is the last one
mapping to its key). -/
theorem spec_C1 (s0 : Option String) (doc : XDoc) (r : PyDict) (S R : ℤ)
    (epl : List (ℤ × PyFloatV)) (qsPt qsPos qsAmt : List QTag)
    (i : ℕ) (pt posEl amtEl : XElem) (ptxt atxt : String) (p : ℤ) (v : PyFloatV)
    (hok : (parse_xml s0 doc).1 = .ok r)
    (hS : getK r "sop" = some (.i S))
    (hR : getK r "reso" = some (.i R))
    (hepl : getK r "epl" = some (.d epl))
    (hq : resolvePath (nsOfDoc s0 doc) (add_pfx "TimeSeries/Period/Point" (stOfDoc s0 doc)) =
            .ok qsPt)
    (hqP : resolvePath (nsOfDoc s0 doc) (add_pfx "position" (stOfDoc s0 doc)) = .ok qsPos)
    (hqA : resolvePath (nsOfDoc s0 doc) (add_pfx "price.amount" (stOfDoc s0 doc)) = .ok qsAmt)
    (hpt : (findAllQ doc.root qsPt).get? i = some pt)
    (hfp : findQ pt qsPos = some posEl)
    (htp : posEl.text = some ptxt)
    (hip : pyInt ptxt = some p)
    (hfa : findQ pt qsAmt = some amtEl)
    (hta : amtEl.text = some atxt)
    (hfv : pyFloat atxt = some v)
    (hlast : ∀ j pt', i < j → (findAllQ doc.root qsPt).get? j = some pt' → ∀ kv,
       entryOf (resolvePath (nsOfDoc s0 doc) (add_pfx "position" (stOfDoc s0 doc)))
         (resolvePath (nsOfDoc s0 doc) (add_pfx "price.amount" (stOfDoc s0 doc)))
         S R pt' = .ok kv → kv.1 ≠ S + (p - 1) * R) :
    getKZ epl (S + (p - 1) * R) = some v := by
  replace hok : parseCore (fieldSpecs (nsOfDoc s0 doc) (stOfDoc s0 doc))
      (resolvePath (nsOfDoc s0 doc) (add_pfx "TimeSeries/Period/Point" (stOfDoc s0 doc)))
      (resolvePath (nsOfDoc s0 doc) (add_pfx "position" (stOfDoc s0 doc)))
      (resolvePath (nsOfDoc s0 doc) (add_pfx "price.amount" (stOfDoc s0 doc)))
      doc.root = .ok r := hok
  obtain ⟨t4, t5, t6, t7, sop, eop, reso, qsPt', epl', hsop, heop, hreso, hpt', hloop, rfl⟩ :=
    parseCore_ok_shape _ _ _ _ _ _ _ hok
  rw [hq] at hpt'
  injection hpt' with hq2
  subst hq2
  simp only [getK, String.reduceEq, reduceIte] at hS hR hepl
  injection hS with hS2
  injection hS2 with hS3
  injection hR with hR2
  injection hR2 with hR3
  injection hepl with hepl2
  injection hepl2 with hepl3
  rw [hS3, hR3, hepl3] at hloop
  have hE : entryOf (resolvePath (nsOfDoc s0 doc) (add_pfx "position" (stOfDoc s0 doc)))
      (resolvePath (nsOfDoc s0 doc) (add_pfx "price.amount" (stOfDoc s0 doc)))
      S R pt = .ok (S + (p - 1) * R, v) := by
    simp only [entryOf, hqP, hqA, hfp, htp, hip, hfa, hta, hfv]
  exact pointLoop_lookup _ _ S R _ _ _ i pt _ v hloop hpt hE hlast

theorem spec_C1_witness :
    getKZ [((1678838400 : ℤ), (⟨250, 0⟩ : PyFloatV)), (1678842000, ⟨1855, -1⟩)]
      (1678838400 + (2 - 1) * 3600) = some ⟨1855, -1⟩ :=
  spec_C1 (some "entsoe") exDoc exParsed 1678838400 3600
    [(1678838400, ⟨250, 0⟩), (1678842000, ⟨1855, -1⟩)]
    [⟨some "urn:x", "TimeSeries"⟩, ⟨some "urn:x", "Period"⟩, ⟨some "urn:x", "Point"⟩]
    [⟨some "urn:x", "position"⟩] [⟨some "urn:x", "price.amount"⟩]
    1
    (el (some "urn:x") "Point" none
      [ el (some "urn:x") "position" (some "2") [],
        el (some "urn:x") "price.amount" (some "185.5") [] ])
    (el (some "urn:x") "position" (some "2") [])
    (el (some "urn:x") "price.amount" (some "185.5") [])
    "2" "185.5" 2 ⟨1855, -1⟩
    (by decide) (by decide) (by decide) (by decide)
    rfl rfl rfl rfl rfl rfl (by decide) rfl rfl (by decide)
    (fun j pt' hij hget => by
      have hnone : (findAllQ exDoc.root
          [⟨some "urn:x", "TimeSeries"⟩, ⟨some "urn:x", "Period"⟩,
           ⟨some "urn:x", "Point"⟩]).get? j = none := by
        apply List.get?_eq_none.mpr
        have hlen : (findAllQ exDoc.root
            [⟨some "urn:x", "TimeSeries"⟩, ⟨some "urn:x", "Period"⟩,
             ⟨some "urn:x", "Point"⟩]).length = 2 := rfl
        omega
      rw [hnone] at hget
      exact Option.noConfusion hget)
theorem resolveSeg_error_kind (ns : NsMap) (seg : String) (e : PErr)
    (h : resolveSeg ns seg = .error e) : e.isParseErr = false := by
  unfold resolveSeg at h
  repeat' split at h
  all_goals (first
    | exact Except.noConfusion h
    | (injection h with h2; subst h2; rfl))

theorem resolveSegs_error_kind (ns : NsMap) (l : List String) (e : PErr)
    (h : resolveSegs ns l = .error e) : e.isParseErr = false := by
  induction l with
  | nil => exact Except.noConfusion h
  | cons s t ih =>
      simp only [resolveSegs] at h
      cases hs : resolveSeg ns s with
      | error e0 =>
          rw [hs] at h
          injection h with h2
          subst h2
          exact resolveSeg_error_kind ns s _ hs
      | ok q =>
          rw [hs] at h
          cases ht : resolveSegs ns t with
          | error e0 =>
              rw [ht] at h
              injection h with h2
              subst h2
              exact ih ht
          | ok qs => rw [ht] at h; exact Except.noConfusion h

theorem resolvePath_error_kind (ns : NsMap) (p : String) (e : PErr)
    (h : resolvePath ns p = .error e) : e.isParseErr = false :=
  resolveSegs_error_kind ns (pathSegs p) e h

theorem entryOf_error_kind (ns : NsMap) (pp pa : String) (S R : ℤ) (pt : XElem) (e : PErr)
    (h : entryOf (resolvePath ns pp) (resolvePath ns pa) S R pt = .error e) :
    e.isParseErr = false := by
  unfold entryOf at h
  cases h1 : resolvePath ns pp with
  | error e0 =>
      rw [h1] at h
      injection h with h2
      subst h2
      exact resolvePath_error_kind ns pp _ h1
  | ok qsI =>
  simp only [h1] at h
  cases h2 : findQ pt qsI with
  | none => simp only [h2] at h; injection h with h3; subst h3; rfl
  | some el0 =>
  simp only [h2] at h
  cases h3 : el0.text with
  | none => simp only [h3] at h; injection h with h4; subst h4; rfl
  | some t0 =>
  simp only [h3] at h
  cases h4 : pyInt t0 with
  | none => simp only [h4] at h; injection h with h5; subst h5; rfl
  | some vi =>
  simp only [h4] at h
  cases h5 : resolvePath ns pa with
  | error e0 =>
      rw [h5] at h
      injection h with h6
      subst h6
      exact resolvePath_error_kind ns pa _ h5
  | ok qsP =>
  simp only [h5] at h
  cases h6 : findQ pt qsP with
  | none => simp only [h6] at h; injection h with h7; subst h7; rfl
  | some pel =>
  simp only [h6] at h
  cases h7 : pel.text with
  | none => simp only [h7] at h; injection h with h8; subst h8; rfl
  | some tp =>
  simp only [h7] at h
  cases h8 : pyFloat tp with
  | none => simp only [h8] at h; injection h with h9; subst h9; rfl
  | some vp => simp only [h8] at h; exact Except.noConfusion h

/-- A document identical to `exDoc` except that its only `Point` lacks
the `position` sub-element. -/
def exDocBadPoint : XDoc :=
  { defaultNs := some "urn:x",
    root := el (some "urn:x") "Publication_MarketDocument" none
      [ el (some "urn:x") "type" (some "A44") [],
        el (some "urn:x") "TimeSeries" none
          [ el (some "urn:x") "curveType" (some "A01") [],
            el (some "urn:x") "currency_Unit.name" (some "EUR") [],
            el (some "urn:x") "price_Measure_Unit.name" (some "MWH") [],
            el (some "urn:x") "Period" none
              [ el (some "urn:x") "timeInterval" none
                  [ el (some "urn:x") "start" (some "2023-03-15T00:00Z") [],
                    el (some "urn:x") "end" (some "2023-03-16T00:00Z") [] ],
                el (some "urn:x") "resolution" (some "PT1H") [],
                el (some "urn:x") "Point" none
                  [ el (some "urn:x") "price.amount" (some "250") [] ] ] ] ] }

/-- Counterexample to claim C7: parsing a document whose only `Point`
lacks its `position` sub-element fails with `AttributeError` (from
`None.text`), which is not the module's `entsoeException`, i.e. not a
`ParseError`. -/
theorem spec_C7_cex :
    (parse_xml (some "entsoe") exDocBadPoint).1 = .error .attrError ∧
    PErr.attrError.isParseErr = false :=
  ⟨by decide, rfl⟩

/-- Claim C7 as amended: a `Point` whose `position` or `price.amount`
sub-element is absent, or whose text is missing or unparsable, makes
the point loop (and hence the parse) fail — but with the Python
built-in exceptions `AttributeError`, `TypeError` or `ValueError`
(or `SyntaxError` from path resolution), never with the module's
`entsoeException`: every error the point loop can produce satisfies
`isParseErr = false`, and a failing point always makes the loop fail. -/
theorem spec_C7_amended :
    (∀ (ns : NsMap) (pp pa : String) (S R : ℤ) (acc : List (ℤ × PyFloatV))
       (l : List XElem) (e : PErr),
       pointLoop (resolvePath ns pp) (resolvePath ns pa) S R acc l = .error e →
       e.isParseErr = false) ∧
    (∀ (ns : NsMap) (pp pa : String) (S R : ℤ) (acc : List (ℤ × PyFloatV))
       (l : List XElem) (i : ℕ) (pt : XElem) (e0 : PErr),
       l.get? i = some pt →
       entryOf (resolvePath ns pp) (resolvePath ns pa) S R pt = .error e0 →
       ∃ e : PErr,
         pointLoop (resolvePath ns pp) (resolvePath ns pa) S R acc l = .error e ∧
         e.isParseErr = false) := by
  constructor
  · intro ns pp pa S R acc l e h
    induction l generalizing acc with
    | nil => exact Except.noConfusion h
    | cons pt0 rest ih =>
        simp only [pointLoop] at h
        cases hE : entryOf (resolvePath ns pp) (resolvePath ns pa) S R pt0 with
        | error e1 =>
            rw [hE] at h
            injection h with h2
            subst h2
            exact entryOf_error_kind ns pp pa S R pt0 _ hE
        | ok kv0 =>
            rw [hE] at h
            exact ih _ h
  · intro ns pp pa S R acc l i pt e0 hpt hE
    induction l generalizing acc i with
    | nil => exact absurd hpt (by simp)
    | cons pt0 rest ih =>
        cases hE0 : entryOf (resolvePath ns pp) (resolvePath ns pa) S R pt0 with
        | error e1 =>
            refine ⟨e1, ?_, entryOf_error_kind ns pp pa S R pt0 _ hE0⟩
            simp only [pointLoop, hE0]
        | ok kv0 =>
            cases i with
            | zero =>
                simp only [List.get?_cons_zero] at hpt
                injection hpt with hpt2
                subst hpt2
                rw [hE] at hE0
                exact Except.noConfusion hE0
            | succ i0 =>
                obtain ⟨e, hLoop, hKind⟩ := ih (setKZ acc kv0.1 kv0.2) i0 (by simpa using hpt)
                refine ⟨e, ?_, hKind⟩
                simp only [pointLoop, hE0]
                exact hLoop

theorem spec_C7_amended_witness :
    PErr.attrError.isParseErr = false ∧
    (∃ e : PErr,
       pointLoop (resolvePath [(some "entsoe", "urn:x")] "entsoe:position")
         (resolvePath [(some "entsoe", "urn:x")] "entsoe:price.amount") 1678838400 3600 []
         [el (some "urn:x") "Point" none
           [el (some "urn:x") "price.amount" (some "250") []]] =
         .error e ∧ e.isParseErr = false) :=
  ⟨spec_C7_amended.1 [(some "entsoe", "urn:x")] "entsoe:position" "entsoe:price.amount"
      1678838400 3600 []
      [el (some "urn:x") "Point" none
        [el (some "urn:x") "price.amount" (some "250") []]]
      .attrError (by decide),
   spec_C7_amended.2 [(some "entsoe", "urn:x")] "entsoe:position" "entsoe:price.amount"
      1678838400 3600 []
      [el (some "urn:x") "Point" none
        [el (some "urn:x") "price.amount" (some "250") []]]
      0
      (el (some "urn:x") "Point" none
        [el (some "urn:x") "price.amount" (some "250") []])
      .attrError rfl (by decide)⟩
theorem resolveSeg_plain (ns : NsMap) (seg : String)
    (hseg : splitAtCh ':' seg.data = none) (u : String) (hd : effDefault ns = some u) :
    resolveSeg ns seg = .ok ⟨some u, seg⟩ := by
  unfold resolveSeg
  rw [hseg, hd]

theorem resolveSeg_pref (ns : NsMap) (seg : String) (l1 l2 : List Char)
    (hseg : splitAtCh ':' seg.data = some (l1, l2))
    (u : String) (hl : nsLookup ns (some (String.mk l1)) = some u) :
    resolveSeg ns seg = .ok ⟨some u, String.mk l2⟩ := by
  unfold resolveSeg
  rw [hseg]
  show (match nsLookup ns (some (String.mk l1)) with
        | some w => (Except.ok ⟨some w, String.mk l2⟩ : Except PErr QTag)
        | none => Except.error (PErr.syntaxError (String.mk l1))) = _
  rw [hl]

theorem effDefault_none_u (u : String) (hu : u ≠ "") :
    effDefault [(none, u)] = some u := by
  simp [effDefault, nsLookup, hu]

theorem nsLookup_entsoe (u : String) :
    nsLookup [(some "entsoe", u)] (some "entsoe") = some u := by
  simp [nsLookup]

theorem resolveSegs_plain (ns : NsMap) (u : String) (hd : effDefault ns = some u)
    (segs : List String) (hsegs : ∀ s ∈ segs, splitAtCh ':' s.data = none) :
    resolveSegs ns segs = .ok (segs.map (fun s => ⟨some u, s⟩)) := by
  induction segs with
  | nil => rfl
  | cons s t ih =>
      simp only [resolveSegs, List.map]
      rw [resolveSeg_plain ns s (hsegs s (by simp)) u hd]
      rw [ih (fun s' hs' => hsegs s' (by simp [hs']))]

theorem rpN (u : String) (hu : u ≠ "") (p : String) (segs : List String)
    (hp : pathSegs p = segs) (hplain : ∀ s ∈ segs, splitAtCh ':' s.data = none) :
    resolvePath [(none, u)] (add_pfx p none) =
      .ok (segs.map (fun s => ⟨some u, s⟩)) := by
  show resolveSegs _ (pathSegs p) = _
  rw [hp]
  exact resolveSegs_plain _ u (effDefault_none_u u hu) segs hplain

theorem rpE_type (u : String) :
    resolvePath [(some "entsoe", u)] (add_pfx "type" (some "entsoe")) =
      .ok [⟨some u, "type"⟩] := by
  show resolveSegs _ (pathSegs (add_pfx "type" (some "entsoe"))) = _
  rw [show pathSegs (add_pfx "type" (some "entsoe")) = ["entsoe:type"] from rfl]
  simp only [resolveSegs]
  rw [resolveSeg_pref _ "entsoe:type" "entsoe".data "type".data (by decide) u (nsLookup_entsoe u)]

theorem rp_eq_type (u : String) (hu : u ≠ "") :
    resolvePath [(none, u)] (add_pfx "type" none) =
      resolvePath [(some "entsoe", u)] (add_pfx "type" (some "entsoe")) := by
  rw [rpN u hu "type" ["type"] rfl (by decide), rpE_type u]
  rfl

theorem rpE_curv (u : String) :
    resolvePath [(some "entsoe", u)] (add_pfx "TimeSeries/curveType" (some "entsoe")) =
      .ok [⟨some u, "TimeSeries"⟩, ⟨some u, "curveType"⟩] := by
  show resolveSegs _ (pathSegs (add_pfx "TimeSeries/curveType" (some "entsoe"))) = _
  rw [show pathSegs (add_pfx "TimeSeries/curveType" (some "entsoe")) = ["entsoe:TimeSeries", "entsoe:curveType"] from rfl]
  simp only [resolveSegs]
  rw [resolveSeg_pref _ "entsoe:TimeSeries" "entsoe".data "TimeSeries".data (by decide) u (nsLookup_entsoe u),
      resolveSeg_pref _ "entsoe:curveType" "entsoe".data "curveType".data (by decide) u (nsLookup_entsoe u)]

theorem rp_eq_curv (u : String) (hu : u ≠ "") :
    resolvePath [(none, u)] (add_pfx "TimeSeries/curveType" none) =
      resolvePath [(some "entsoe", u)] (add_pfx "TimeSeries/curveType" (some "entsoe")) := by
  rw [rpN u hu "TimeSeries/curveType" ["TimeSeries", "curveType"] rfl (by decide), rpE_curv u]
  rfl

theorem rpE_ucur (u : String) :
    resolvePath [(some "entsoe", u)] (add_pfx "TimeSeries/currency_Unit.name" (some "entsoe")) =
      .ok [⟨some u, "TimeSeries"⟩, ⟨some u, "currency_Unit.name"⟩] := by
  show resolveSegs _ (pathSegs (add_pfx "TimeSeries/currency_Unit.name" (some "entsoe"))) = _
  rw [show pathSegs (add_pfx "TimeSeries/currency_Unit.name" (some "entsoe")) = ["entsoe:TimeSeries", "entsoe:currency_Unit.name"] from rfl]
  simp only [resolveSegs]
  rw [resolveSeg_pref _ "entsoe:TimeSeries" "entsoe".data "TimeSeries".data (by decide) u (nsLookup_entsoe u),
      resolveSeg_pref _ "entsoe:currency_Unit.name" "entsoe".data "currency_Unit.name".data (by decide) u (nsLookup_entsoe u)]

theorem rp_eq_ucur (u : String) (hu : u ≠ "") :
    resolvePath [(none, u)] (add_pfx "TimeSeries/currency_Unit.name" none) =
      resolvePath [(some "entsoe", u)] (add_pfx "TimeSeries/currency_Unit.name" (some "entsoe")) := by
  rw [rpN u hu "TimeSeries/currency_Unit.name" ["TimeSeries", "currency_Unit.name"] rfl (by decide), rpE_ucur u]
  rfl

theorem rpE_upmu (u : String) :
    resolvePath [(some "entsoe", u)] (add_pfx "TimeSeries/price_Measure_Unit.name" (some "entsoe")) =
      .ok [⟨some u, "TimeSeries"⟩, ⟨some u, "price_Measure_Unit.name"⟩] := by
  show resolveSegs _ (pathSegs (add_pfx "TimeSeries/price_Measure_Unit.name" (some "entsoe"))) = _
  rw [show pathSegs (add_pfx "TimeSeries/price_Measure_Unit.name" (some "entsoe")) = ["entsoe:TimeSeries", "entsoe:price_Measure_Unit.name"] from rfl]
  simp only [resolveSegs]
  rw [resolveSeg_pref _ "entsoe:TimeSeries" "entsoe".data "TimeSeries".data (by decide) u (nsLookup_entsoe u),
      resolveSeg_pref _ "entsoe:price_Measure_Unit.name" "entsoe".data "price_Measure_Unit.name".data (by decide) u (nsLookup_entsoe u)]

theorem rp_eq_upmu (u : String) (hu : u ≠ "") :
    resolvePath [(none, u)] (add_pfx "TimeSeries/price_Measure_Unit.name" none) =
      resolvePath [(some "entsoe", u)] (add_pfx "TimeSeries/price_Measure_Unit.name" (some "entsoe")) := by
  rw [rpN u hu "TimeSeries/price_Measure_Unit.name" ["TimeSeries", "price_Measure_Unit.name"] rfl (by decide), rpE_upmu u]
  rfl

theorem rpE_sop (u : String) :
    resolvePath [(some "entsoe", u)] (add_pfx "TimeSeries/Period/timeInterval/start" (some "entsoe")) =
      .ok [⟨some u, "TimeSeries"⟩, ⟨some u, "Period"⟩, ⟨some u, "timeInterval"⟩, ⟨some u, "start"⟩] := by
  show resolveSegs _ (pathSegs (add_pfx "TimeSeries/Period/timeInterval/start" (some "entsoe"))) = _
  rw [show pathSegs (add_pfx "TimeSeries/Period/timeInterval/start" (some "entsoe")) = ["entsoe:TimeSeries", "entsoe:Period", "entsoe:timeInterval", "entsoe:start"] from rfl]
  simp only [resolveSegs]
  rw [resolveSeg_pref _ "entsoe:TimeSeries" "entsoe".data "TimeSeries".data (by decide) u (nsLookup_entsoe u),
      resolveSeg_pref _ "entsoe:Period" "entsoe".data "Period".data (by decide) u (nsLookup_entsoe u),
      resolveSeg_pref _ "entsoe:timeInterval" "entsoe".data "timeInterval".data (by decide) u (nsLookup_entsoe u),
      resolveSeg_pref _ "entsoe:start" "entsoe".data "start".data (by decide) u (nsLookup_entsoe u)]

theorem rp_eq_sop (u : String) (hu : u ≠ "") :
    resolvePath [(none, u)] (add_pfx "TimeSeries/Period/timeInterval/start" none) =
      resolvePath [(some "entsoe", u)] (add_pfx "TimeSeries/Period/timeInterval/start" (some "entsoe")) := by
  rw [rpN u hu "TimeSeries/Period/timeInterval/start" ["TimeSeries", "Period", "timeInterval", "start"] rfl (by decide), rpE_sop u]
  rfl

theorem rpE_eop (u : String) :
    resolvePath [(some "entsoe", u)] (add_pfx "TimeSeries/Period/timeInterval/end" (some "entsoe")) =
      .ok [⟨some u, "TimeSeries"⟩, ⟨some u, "Period"⟩, ⟨some u, "timeInterval"⟩, ⟨some u, "end"⟩] := by
  show resolveSegs _ (pathSegs (add_pfx "TimeSeries/Period/timeInterval/end" (some "entsoe"))) = _
  rw [show pathSegs (add_pfx "TimeSeries/Period/timeInterval/end" (some "entsoe")) = ["entsoe:TimeSeries", "entsoe:Period", "entsoe:timeInterval", "entsoe:end"] from rfl]
  simp only [resolveSegs]
  rw [resolveSeg_pref _ "entsoe:TimeSeries" "entsoe".data "TimeSeries".data (by decide) u (nsLookup_entsoe u),
      resolveSeg_pref _ "entsoe:Period" "entsoe".data "Period".data (by decide) u (nsLookup_entsoe u),
      resolveSeg_pref _ "entsoe:timeInterval" "entsoe".data "timeInterval".data (by decide) u (nsLookup_entsoe u),
      resolveSeg_pref _ "entsoe:end" "entsoe".data "end".data (by decide) u (nsLookup_entsoe u)]

theorem rp_eq_eop (u : String) (hu : u ≠ "") :
    resolvePath [(none, u)] (add_pfx "TimeSeries/Period/timeInterval/end" none) =
      resolvePath [(some "entsoe", u)] (add_pfx "TimeSeries/Period/timeInterval/end" (some "entsoe")) := by
  rw [rpN u hu "TimeSeries/Period/timeInterval/end" ["TimeSeries", "Period", "timeInterval", "end"] rfl (by decide), rpE_eop u]
  rfl

theorem rpE_reso (u : String) :
    resolvePath [(some "entsoe", u)] (add_pfx "TimeSeries/Period/resolution" (some "entsoe")) =
      .ok [⟨some u, "TimeSeries"⟩, ⟨some u, "Period"⟩, ⟨some u, "resolution"⟩] := by
  show resolveSegs _ (pathSegs (add_pfx "TimeSeries/Period/resolution" (some "entsoe"))) = _
  rw [show pathSegs (add_pfx "TimeSeries/Period/resolution" (some "entsoe")) = ["entsoe:TimeSeries", "entsoe:Period", "entsoe:resolution"] from rfl]
  simp only [resolveSegs]
  rw [resolveSeg_pref _ "entsoe:TimeSeries" "entsoe".data "TimeSeries".data (by decide) u (nsLookup_entsoe u),
      resolveSeg_pref _ "entsoe:Period" "entsoe".data "Period".data (by decide) u (nsLookup_entsoe u),
      resolveSeg_pref _ "entsoe:resolution" "entsoe".data "resolution".data (by decide) u (nsLookup_entsoe u)]

theorem rp_eq_reso (u : String) (hu : u ≠ "") :
    resolvePath [(none, u)] (add_pfx "TimeSeries/Period/resolution" none) =
      resolvePath [(some "entsoe", u)] (add_pfx "TimeSeries/Period/resolution" (some "entsoe")) := by
  rw [rpN u hu "TimeSeries/Period/resolution" ["TimeSeries", "Period", "resolution"] rfl (by decide), rpE_reso u]
  rfl

theorem rpE_point (u : String) :
    resolvePath [(some "entsoe", u)] (add_pfx "TimeSeries/Period/Point" (some "entsoe")) =
      .ok [⟨some u, "TimeSeries"⟩, ⟨some u, "Period"⟩, ⟨some u, "Point"⟩] := by
  show resolveSegs _ (pathSegs (add_pfx "TimeSeries/Period/Point" (some "entsoe"))) = _
  rw [show pathSegs (add_pfx "TimeSeries/Period/Point" (some "entsoe")) = ["entsoe:TimeSeries", "entsoe:Period", "entsoe:Point"] from rfl]
  simp only [resolveSegs]
  rw [resolveSeg_pref _ "entsoe:TimeSeries" "entsoe".data "TimeSeries".data (by decide) u (nsLookup_entsoe u),
      resolveSeg_pref _ "entsoe:Period" "entsoe".data "Period".data (by decide) u (nsLookup_entsoe u),
      resolveSeg_pref _ "entsoe:Point" "entsoe".data "Point".data (by decide) u (nsLookup_entsoe u)]

theorem rp_eq_point (u : String) (hu : u ≠ "") :
    resolvePath [(none, u)] (add_pfx "TimeSeries/Period/Point" none) =
      resolvePath [(some "entsoe", u)] (add_pfx "TimeSeries/Period/Point" (some "entsoe")) := by
  rw [rpN u hu "TimeSeries/Period/Point" ["TimeSeries", "Period", "Point"] rfl (by decide), rpE_point u]
  rfl

theorem rpE_pos (u : String) :
    resolvePath [(some "entsoe", u)] (add_pfx "position" (some "entsoe")) =
      .ok [⟨some u, "position"⟩] := by
  show resolveSegs _ (pathSegs (add_pfx "position" (some "entsoe"))) = _
  rw [show pathSegs (add_pfx "position" (some "entsoe")) = ["entsoe:position"] from rfl]
  simp only [resolveSegs]
  rw [resolveSeg_pref _ "entsoe:position" "entsoe".data "position".data (by decide) u (nsLookup_entsoe u)]

theorem rp_eq_pos (u : String) (hu : u ≠ "") :
    resolvePath [(none, u)] (add_pfx "position" none) =
      resolvePath [(some "entsoe", u)] (add_pfx "position" (some "entsoe")) := by
  rw [rpN u hu "position" ["position"] rfl (by decide), rpE_pos u]
  rfl

theorem rpE_price (u : String) :
    resolvePath [(some "entsoe", u)] (add_pfx "price.amount" (some "entsoe")) =
      .ok [⟨some u, "price.amount"⟩] := by
  show resolveSegs _ (pathSegs (add_pfx "price.amount" (some "entsoe"))) = _
  rw [show pathSegs (add_pfx "price.amount" (some "entsoe")) = ["entsoe:price.amount"] from rfl]
  simp only [resolveSegs]
  rw [resolveSeg_pref _ "entsoe:price.amount" "entsoe".data "price.amount".data (by decide) u (nsLookup_entsoe u)]

theorem rp_eq_price (u : String) (hu : u ≠ "") :
    resolvePath [(none, u)] (add_pfx "price.amount" none) =
      resolvePath [(some "entsoe", u)] (add_pfx "price.amount" (some "entsoe")) := by
  rw [rpN u hu "price.amount" ["price.amount"] rfl (by decide), rpE_price u]
  rfl

theorem fieldSpecs_eq (u : String) (hu : u ≠ "") :
    fieldSpecs [(none, u)] none = fieldSpecs [(some "entsoe", u)] (some "entsoe") := by
  simp only [fieldSpecs, xml_extract, List.map]
  rw [rp_eq_type u hu, rp_eq_curv u hu, rp_eq_ucur u hu, rp_eq_upmu u hu, rp_eq_sop u hu,
      rp_eq_eop u hu, rp_eq_reso u hu]

/-- Claim C9: although the module mutates the global `xmlns_id`
(clearing it when a document has no default namespace), the observable
parse result depends only on the document: from any state the global
can reach (`'entsoe'` initially, `None` after a namespace-free
document), parsing the same document gives the same outcome.  The side
condition excludes the empty default-namespace URI, which `lxml` never
presents in `nsmap`. -/
theorem spec_C9 (doc : XDoc) (s0 : Option String)
    (hreach : s0 = some "entsoe" ∨ s0 = none)
    (hns : doc.defaultNs ≠ some "") :
    (parse_xml s0 doc).1 = (parse_xml (some "entsoe") doc).1 := by
  rcases hreach with rfl | rfl
  · rfl
  · cases hd : doc.defaultNs with
    | none => simp only [parse_xml, nsOfDoc, stOfDoc, hd]
    | some u =>
        have hu : u ≠ "" := by
          intro h
          exact hns (by rw [hd, h])
        simp only [parse_xml, nsOfDoc, stOfDoc, hd]
        rw [fieldSpecs_eq u hu, rp_eq_point u hu, rp_eq_pos u hu, rp_eq_price u hu]

theorem spec_C9_witness :
    (parse_xml none exDoc).1 = (parse_xml (some "entsoe") exDoc).1 :=
  spec_C9 exDoc none (Or.inr rfl) (by decide)
end Entsoe
